import Mathlib

/-!
Verification of the heat-pump telemetry collector's metric-normalization
core against its specification.

The Python sources are shallowly embedded:

* numeric values are modelled as exact rationals (`ℚ`); Python floats are
  IEEE doubles, but every property checked here concerns decimal parsing,
  two's-complement decoding, clamping and range checks, which the rational
  model captures exactly (the special float values `inf`/`nan` that
  `float(...)` also accepts are outside this model and are noted where
  relevant);
* `round(x, n)` is modelled as round-half-to-even at `n` decimal digits;
* Python dicts holding configuration are modelled as association lists
  (`List (String × _)`) with `List.lookup`, and `dict.get` defaults are
  modelled with `Option.getD`;
* functions that can raise return `Except`, functions that swallow errors
  into `None` return `Option`.
-/

/-! ## Rounding: a model of Python's `round(x, ndigits)`

Python rounds half to even. `rhe q` is the integer nearest to `q`, ties to
the even integer; `pyRound n q` rounds `q` to `n` decimal places. -/

/-- Round a rational to the nearest integer, half to even. -/
def rhe (q : ℚ) : ℤ :=
  if q - ⌊q⌋ = 1/2 then (if ⌊q⌋ % 2 = 0 then ⌊q⌋ else ⌊q⌋ + 1) else round q

/-- Model of Python's `round(q, n)` for `n ≥ 1` decimal digits. -/
def pyRound (n : ℕ) (q : ℚ) : ℚ := (rhe (q * 10 ^ n) : ℚ) / 10 ^ n

theorem floor_le_rhe (q : ℚ) : ⌊q⌋ ≤ rhe q := by
  unfold rhe
  split
  · split
    · exact le_refl _
    · omega
  · rw [round_eq]
    exact Int.floor_le_floor (by linarith)

theorem rhe_le_ceil (q : ℚ) : rhe q ≤ ⌈q⌉ := by
  unfold rhe
  split
  · rename_i h
    have hlt : (⌊q⌋ : ℚ) < q := by linarith
    have hfc : ⌊q⌋ < ⌈q⌉ := Int.lt_ceil.mpr hlt
    split <;> omega
  · rw [round_eq]
    have h3 : ⌊q + 1/2⌋ < ⌈q⌉ + 1 :=
      Int.floor_lt.mpr (by push_cast; linarith [Int.le_ceil q])
    omega

theorem pyRound_nonneg (n : ℕ) (q : ℚ) (hq : 0 ≤ q) : 0 ≤ pyRound n q := by
  unfold pyRound
  have hb : (0 : ℤ) ≤ ⌊q * 10 ^ n⌋ := by positivity
  have := floor_le_rhe (q * 10 ^ n)
  have hr : (0 : ℤ) ≤ rhe (q * 10 ^ n) := le_trans hb this
  have h10 : (0 : ℚ) < 10 ^ n := by positivity
  have : (0 : ℚ) ≤ (rhe (q * 10 ^ n) : ℚ) := by exact_mod_cast hr
  positivity

theorem pyRound_le_intCast (n : ℕ) (q : ℚ) (z : ℤ) (hq : q ≤ (z : ℚ)) :
    pyRound n q ≤ (z : ℚ) := by
  unfold pyRound
  have hc : ⌈q * 10 ^ n⌉ ≤ z * 10 ^ n := by
    apply Int.ceil_le.mpr
    push_cast
    have h10 : (0 : ℚ) ≤ 10 ^ n := by positivity
    exact mul_le_mul_of_nonneg_right hq h10
  have hr : rhe (q * 10 ^ n) ≤ z * 10 ^ n := le_trans (rhe_le_ceil _) hc
  have h10 : (0 : ℚ) < 10 ^ n := by positivity
  rw [div_le_iff₀ h10]
  exact_mod_cast hr

/-! ## Decimal parsing: a model of Python's `float(raw_value)`

`parseFloat` accepts an optional sign, digits with an optional fraction
part, and an optional decimal exponent, after stripping surrounding ASCII
whitespace — the finite decimal literals `float` accepts. (`float` also
accepts `inf`/`nan` spellings and digit-group underscores; those inputs
are outside the rational model.) -/

def digitsToNat (ds : List Char) : ℕ :=
  ds.foldl (fun a c => 10 * a + (c.toNat - 48)) 0

def isSpaceChar (c : Char) : Bool :=
  c = ' ' || c = '\t' || c = '\n' || c = '\r' || c = '\x0b' || c = '\x0c'

def stripWs (cs : List Char) : List Char :=
  ((cs.dropWhile isSpaceChar).reverse.dropWhile isSpaceChar).reverse

/-- Longest digit run at the head of the list, and the rest. -/
def spanDigits : List Char → List Char × List Char
  | [] => ([], [])
  | c :: rest =>
    if c.isDigit then
      let p := spanDigits rest
      (c :: p.1, p.2)
    else ([], c :: rest)

/-- Parse the exponent suffix (empty, or `e`/`E`, optional sign, digits). -/
def parseExponent : List Char → Option ℤ
  | [] => some 0
  | c :: rest =>
    if c = 'e' || c = 'E' then
      let sr : ℤ × List Char :=
        match rest with
        | '+' :: t => (1, t)
        | '-' :: t => (-1, t)
        | _ => (1, rest)
      let p := spanDigits sr.2
      if p.1 = [] || p.2 ≠ [] then none
      else some (sr.1 * (digitsToNat p.1 : ℤ))
    else none

def parseFloat (s : String) : Option ℚ :=
  let cs := stripWs s.data
  let sc : ℚ × List Char :=
    match cs with
    | '+' :: t => (1, t)
    | '-' :: t => (-1, t)
    | _ => (1, cs)
  let p1 := spanDigits sc.2
  let p2 : List Char × List Char :=
    match p1.2 with
    | '.' :: t => spanDigits t
    | _ => ([], p1.2)
  if p1.1 = [] ∧ p2.1 = [] then none
  else
    match parseExponent p2.2 with
    | none => none
    | some e =>
      some (sc.1 * ((digitsToNat p1.1 : ℚ) + (digitsToNat p2.1 : ℚ) / 10 ^ p2.1.length) * (10 : ℚ) ^ e)

/-! ## `src/collector/metrics.py` — `MetricsProcessor`

One register's configuration entry, as `_get_default_registers` builds
them (`name`, `unit`, `type`, `description`). `register_info.get('type',
'unknown')` is modelled by the `type` field holding `"unknown"` when the
key is absent. -/

structure RegisterInfo where
  name : String
  unit : String
  type : String
  description : String
deriving DecidableEq

/-- `MetricsProcessor._process_temperature`: two's-complement decode above
32768, reject outside [-50, 150], round to one decimal. -/
def process_temperature (value : ℚ) : Option ℚ :=
  let v := if value > 32768 then value - 65536 else value
  if v < -50 ∨ v > 150 then none
  else some (pyRound 1 v)

/-- `MetricsProcessor._process_status`: pass through. -/
def process_status (value : ℚ) : ℚ := value

/-- `MetricsProcessor._process_power`: clamp negatives to 0.0, round to one
decimal. -/
def process_power (value : ℚ) : ℚ :=
  if value < 0 then 0 else pyRound 1 value

/-- `MetricsProcessor._process_energy`: clamp negatives to 0.0, round to two
decimals. -/
def process_energy (value : ℚ) : ℚ :=
  if value < 0 then 0 else pyRound 2 value

/-- `MetricsProcessor._process_percentage`: clamp into [0, 100], round to one
decimal. -/
def process_percentage (value : ℚ) : ℚ :=
  if value < 0 then 0
  else if value > 100 then 100
  else pyRound 1 value

/-- `MetricsProcessor._process_setting`: pass through. -/
def process_setting (value : ℚ) : ℚ := value

/-- `MetricsProcessor._process_alarm`: `float(value)` — identity here. -/
def process_alarm (value : ℚ) : ℚ := value

/-- `MetricsProcessor._process_runtime`: clamp negatives to 0.0, round to one
decimal. -/
def process_runtime (value : ℚ) : ℚ :=
  if value < 0 then 0 else pyRound 1 value

/-- `MetricsProcessor.process_value`: parse the raw string (parse failure →
`none`), then dispatch on the register's `type`; an unknown type passes the
parsed value through. The Python body is wrapped in a catch-all
`try/except` returning `None`; the embedded dispatch is total, so every
outcome is `some` or `none` by construction. -/
def process_value (register_id : String) (raw_value : String) (register_info : RegisterInfo) : Option ℚ :=
  match parseFloat raw_value with
  | none => none
  | some value =>
    if register_info.type = "temperature" then process_temperature value
    else if register_info.type = "status" then some (process_status value)
    else if register_info.type = "power" then some (process_power value)
    else if register_info.type = "energy" then some (process_energy value)
    else if register_info.type = "percentage" then some (process_percentage value)
    else if register_info.type = "setting" then some (process_setting value)
    else if register_info.type = "alarm" then some (process_alarm value)
    else if register_info.type = "runtime" then some (process_runtime value)
    else some value

/-- `MetricsProcessor.validate_metric`: per-type bounds on an already
processed value; a register id absent from the configuration passes. -/
def validate_metric (registers : List (String × RegisterInfo)) (register_id : String) (value : ℚ) : Bool :=
  match List.lookup register_id registers with
  | none => true
  | some register_info =>
    if register_info.type = "temperature" then decide (-50 ≤ value ∧ value ≤ 150)
    else if register_info.type = "status" then true
    else if register_info.type = "power" then decide (0 ≤ value ∧ value ≤ 50000)
    else if register_info.type = "energy" then decide (0 ≤ value)
    else if register_info.type = "percentage" then decide (0 ≤ value ∧ value ≤ 100)
    else if register_info.type = "alarm" then decide (0 ≤ value)
    else true

/-- The spec's two's-complement decode step for `temperature`, named for use
in the claims: values above 32768 are reinterpreted as signed 16-bit. -/
def twos_complement_decode (value : ℚ) : ℚ :=
  if value > 32768 then value - 65536 else value

/-- A register configuration carrying only a `type`, for stating claims
about the per-class normalization rules. -/
def mkInfo (t : String) : RegisterInfo := ⟨"", "", t, ""⟩

/-! ## Claims C1–C4: normalization rules -/

/-- C1: for every raw value of class `temperature`, the parsed value is
decoded (values above 32768 become `value - 65536`, the signed 16-bit
reinterpretation; others are unchanged), accepted rounded to one decimal
exactly when the decoded value lies in [-50, 150], and rejected otherwise.
In particular raw value "33000" of class temperature parses to 33000 and is
rejected (33000 - 65536 = -32536 is out of range). -/
theorem temperature_twos_complement_and_range (q : ℚ) :
    process_temperature q =
      (if -50 ≤ twos_complement_decode q ∧ twos_complement_decode q ≤ 150
        then some (pyRound 1 (twos_complement_decode q)) else none) ∧
    (32768 < q → twos_complement_decode q = q - 65536) ∧
    (¬ 32768 < q → twos_complement_decode q = q) ∧
    parseFloat "33000" = some 33000 ∧
    process_value "0007" "33000" (mkInfo "temperature") = none := by
  refine ⟨?_, fun h => by unfold twos_complement_decode; exact if_pos h,
    fun h => by unfold twos_complement_decode; exact if_neg h,
    by with_unfolding_all rfl, by with_unfolding_all rfl⟩
  by_cases h : -50 ≤ twos_complement_decode q ∧ twos_complement_decode q ≤ 150
  · rw [if_pos h]
    show (if twos_complement_decode q < -50 ∨ twos_complement_decode q > 150
      then none else some (pyRound 1 (twos_complement_decode q))) = _
    rw [if_neg (by push_neg; exact h)]
  · rw [if_neg h]
    show (if twos_complement_decode q < -50 ∨ twos_complement_decode q > 150
      then none else some (pyRound 1 (twos_complement_decode q))) = none
    rw [if_pos (by by_contra hc; push_neg at hc; exact h hc)]

/-- C2: for classes `power`, `energy` and `runtime`, a parseable negative
value is clamped to 0.0 (never returned negative, never rejected), and a
non-negative value is rounded to one decimal (power, runtime) or two
decimals (energy). -/
theorem negative_power_energy_runtime_clamp (q : ℚ) (rid raw : String) :
    process_power q = (if q < 0 then 0 else pyRound 1 q) ∧
    process_energy q = (if q < 0 then 0 else pyRound 2 q) ∧
    process_runtime q = (if q < 0 then 0 else pyRound 1 q) ∧
    0 ≤ process_power q ∧ 0 ≤ process_energy q ∧ 0 ≤ process_runtime q ∧
    process_value rid raw (mkInfo "power") = (parseFloat raw).map process_power ∧
    process_value rid raw (mkInfo "energy") = (parseFloat raw).map process_energy ∧
    process_value rid raw (mkInfo "runtime") = (parseFloat raw).map process_runtime := by
  refine ⟨rfl, rfl, rfl, ?_, ?_, ?_, ?_, ?_, ?_⟩
  · unfold process_power
    split_ifs with h
    · exact le_refl 0
    · exact pyRound_nonneg 1 q (le_of_not_lt h)
  · unfold process_energy
    split_ifs with h
    · exact le_refl 0
    · exact pyRound_nonneg 2 q (le_of_not_lt h)
  · unfold process_runtime
    split_ifs with h
    · exact le_refl 0
    · exact pyRound_nonneg 1 q (le_of_not_lt h)
  · cases hp : parseFloat raw <;> simp [process_value, hp, mkInfo]
  · cases hp : parseFloat raw <;> simp [process_value, hp, mkInfo]
  · cases hp : parseFloat raw <;> simp [process_value, hp, mkInfo]

/-- C3: for class `percentage`, the output always lies in [0, 100]: negative
inputs are clamped to 0.0, inputs above 100 are clamped to 100.0, and
in-range inputs are rounded to one decimal. -/
theorem percentage_clamped_to_unit_range (q : ℚ) (rid raw : String) :
    process_percentage q =
      (if q < 0 then 0 else if 100 < q then 100 else pyRound 1 q) ∧
    0 ≤ process_percentage q ∧ process_percentage q ≤ 100 ∧
    process_value rid raw (mkInfo "percentage") = (parseFloat raw).map process_percentage := by
  refine ⟨rfl, ?_, ?_, ?_⟩
  · unfold process_percentage
    split_ifs with h1 h2
    · exact le_refl 0
    · norm_num
    · exact pyRound_nonneg 1 q (le_of_not_lt h1)
  · unfold process_percentage
    split_ifs with h1 h2
    · norm_num
    · exact le_refl 100
    · have := pyRound_le_intCast 1 q 100 (by push_neg at h2; exact_mod_cast h2)
      exact_mod_cast this
  · cases hp : parseFloat raw <;> simp [process_value, hp, mkInfo]

/-- C4: normalization always reaches a defined terminal outcome: the result
of `process_value` is `none` exactly when the raw string fails to parse as a
decimal number, or the class is `temperature` and the decoded value is out
of [-50, 150]; every other input yields an accepted value. -/
theorem process_value_rejection_characterization
    (register_id raw_value : String) (register_info : RegisterInfo) :
    process_value register_id raw_value register_info = none ↔
      parseFloat raw_value = none ∨
        ∃ q, parseFloat raw_value = some q ∧ register_info.type = "temperature" ∧
          (twos_complement_decode q < -50 ∨ 150 < twos_complement_decode q) := by
  cases hp : parseFloat raw_value with
  | none => simp [process_value, hp]
  | some q =>
    by_cases ht : register_info.type = "temperature"
    · simp only [process_value, hp, ht, if_pos, Option.some.injEq, reduceCtorEq,
        false_or, exists_eq_left']
      show process_temperature q = none ↔ _
      unfold process_temperature
      show (if twos_complement_decode q < -50 ∨ twos_complement_decode q > 150
        then none else some (pyRound 1 (twos_complement_decode q))) = none ↔ _
      split_ifs with h <;> simp [h]
    · simp only [process_value, hp, ht, if_false, Option.some.injEq, reduceCtorEq,
        false_or, exists_eq_left', false_and, and_false, or_false, iff_false]
      split_ifs <;> simp

/-! ## `src/collector/collector.py` — `ThermiaCollector`

`_on_message` splits the MQTT topic on `/` (Python `str.split('/')`,
re-implemented structurally as `pySplit`), takes the register id from the
third segment or — for `STATUS` topics — the fourth, and `_process_metric`
uppercases it before the catalog lookup. Python's `str.upper()` on the
ASCII register ids coincides with `Char.toUpper`. -/

def pyUpper (s : String) : String := ⟨s.data.map Char.toUpper⟩

/-- Python's `str.split(sep)` for a one-character separator: splits on every
occurrence and keeps empty segments. -/
def pySplit (sep : Char) : List Char → List (List Char)
  | [] => [[]]
  | c :: rest =>
    if c = sep then [] :: pySplit sep rest
    else
      match pySplit sep rest with
      | [] => [[c]]
      | h :: t => (c :: h) :: t

/-- `ThermiaCollector._on_message`: extract the register id from a topic of
the form `<mac>/HP/<register_id>` or `<mac>/HP/STATUS/<register_id>`; topics
with fewer than three segments are ignored. -/
def extract_register_id (topic : List Char) : Option (List Char) :=
  let parts := pySplit '/' topic
  if 3 ≤ parts.length then
    if parts.getD 2 [] = "STATUS".data ∧ 4 ≤ parts.length then some (parts.getD 3 [])
    else some (parts.getD 2 [])
  else none

/-- One InfluxDB point as `_process_metric` builds it: tags `register_id`,
`name`, `type` (and `unit` when the register's unit string is non-empty,
Python truthiness) and the processed value. The wall-clock timestamp
`datetime.utcnow()` is outside the model. -/
structure InfluxPoint where
  register_id : String
  name : String
  type : String
  value : ℚ
  unit : Option String
deriving DecidableEq

/-- `ThermiaCollector._process_metric`: uppercase the register id, drop the
observation when the id is not in the catalog, drop it when normalization
returns no value, otherwise build the point handed to the storage write. -/
def process_metric (registers : List (String × RegisterInfo)) (register_id : String)
    (value : String) : Option InfluxPoint :=
  let register_id_upper := pyUpper register_id
  match List.lookup register_id_upper registers with
  | none => none
  | some register_info =>
    match process_value register_id_upper value register_info with
    | none => none
    | some processed_value =>
      some { register_id := register_id_upper, name := register_info.name,
             type := register_info.type, value := processed_value,
             unit := if register_info.unit ≠ "" then some register_info.unit else none }

/-- `RegisterManager.get_register_config`: look the uppercased register id
up in the loaded profile's register table. -/
def get_register_config (registers : List (String × RegisterInfo)) (register_id : String) :
    Option RegisterInfo :=
  List.lookup (pyUpper register_id) registers

theorem pySplit_ne_nil (sep : Char) (cs : List Char) : pySplit sep cs ≠ [] := by
  cases cs with
  | nil => simp [pySplit]
  | cons c rest =>
    unfold pySplit
    split
    · simp
    · split <;> simp

theorem pySplit_no_sep (sep : Char) (cs : List Char) (h : sep ∉ cs) :
    pySplit sep cs = [cs] := by
  induction cs with
  | nil => rfl
  | cons c rest ih =>
    have hc : ¬ c = sep := fun he => h (he ▸ List.mem_cons_self c rest)
    have hrest : sep ∉ rest := fun hm => h (List.mem_cons_of_mem c hm)
    unfold pySplit
    rw [if_neg hc, ih hrest]

theorem pySplit_append (sep : Char) (a b : List Char) (h : sep ∉ a) :
    pySplit sep (a ++ sep :: b) = a :: pySplit sep b := by
  induction a with
  | nil =>
    show pySplit sep (sep :: b) = [] :: pySplit sep b
    simp [pySplit]
  | cons c a ih =>
    have hc : ¬ c = sep := fun he => h (he ▸ List.mem_cons_self c a)
    have ha : sep ∉ a := fun hm => h (List.mem_cons_of_mem c hm)
    show pySplit sep (c :: (a ++ sep :: b)) = (c :: a) :: pySplit sep b
    simp only [pySplit]
    rw [if_neg hc, ih ha]

theorem toNat_ofNat_of_lt {n : ℕ} (h : n < 55296) : (Char.ofNat n).toNat = n := by
  have hv : n.isValidChar := Or.inl h
  rw [Char.ofNat, dif_pos hv]
  rfl

theorem toUpper_toUpper (c : Char) : c.toUpper.toUpper = c.toUpper := by
  unfold Char.toUpper
  by_cases h : c.toNat ≥ 97 ∧ c.toNat ≤ 122
  · rw [if_pos h]
    have ht : (Char.ofNat (c.toNat - 32)).toNat = c.toNat - 32 :=
      toNat_ofNat_of_lt (by omega)
    rw [if_neg (by rw [ht]; omega)]
  · rw [if_neg h, if_neg h]

theorem pyUpper_idem (s : String) : pyUpper (pyUpper s) = pyUpper s := by
  unfold pyUpper
  show String.mk ((s.data.map Char.toUpper).map Char.toUpper) = String.mk (s.data.map Char.toUpper)
  rw [List.map_map]
  congr 1
  apply List.map_congr_left
  intro c _
  exact toUpper_toUpper c

/-- C5: ingesting a `(register_id, raw_value)` pair drops the observation
without a point when the uppercased id is not in the register catalog, drops
it when normalization rejects the raw value, and hands a point to storage
exactly when both steps succeed. -/
theorem ingest_drop_and_emit (registers : List (String × RegisterInfo))
    (register_id raw : String) :
    (List.lookup (pyUpper register_id) registers = none →
      process_metric registers register_id raw = none) ∧
    (∀ info, List.lookup (pyUpper register_id) registers = some info →
      process_value (pyUpper register_id) raw info = none →
        process_metric registers register_id raw = none) ∧
    (∀ info v, List.lookup (pyUpper register_id) registers = some info →
      process_value (pyUpper register_id) raw info = some v →
        process_metric registers register_id raw =
          some { register_id := pyUpper register_id, name := info.name,
                 type := info.type, value := v,
                 unit := if info.unit ≠ "" then some info.unit else none }) := by
  refine ⟨fun h => ?_, fun info h hv => ?_, fun info v h hv => ?_⟩
  · simp only [process_metric, h]
  · simp only [process_metric, h, hv]
  · simp only [process_metric, h, hv]

/-- Witness for C5 at a concrete catalog: an unknown id produces no point, a
known id with an unparseable value produces no point, and a known id with a
valid value produces the stored point. -/
theorem ingest_drop_and_emit_witness :
    process_metric [("0007", ⟨"outdoor_temp", "°C", "temperature", "Outdoor temperature"⟩)]
      "ffff" "54.0" = none ∧
    process_metric [("0007", ⟨"outdoor_temp", "°C", "temperature", "Outdoor temperature"⟩)]
      "0007" "abc" = none ∧
    process_metric [("0007", ⟨"outdoor_temp", "°C", "temperature", "Outdoor temperature"⟩)]
      "0007" "54.0" =
      some ⟨"0007", "outdoor_temp", "temperature", 54, some "°C"⟩ := by
  refine ⟨(ingest_drop_and_emit _ "ffff" "54.0").1 (by with_unfolding_all rfl),
    (ingest_drop_and_emit _ "0007" "abc").2.1 ⟨"outdoor_temp", "°C", "temperature", "Outdoor temperature"⟩
      (by with_unfolding_all rfl) (by with_unfolding_all rfl),
    ?_⟩
  have h3 := (ingest_drop_and_emit
    [("0007", ⟨"outdoor_temp", "°C", "temperature", "Outdoor temperature"⟩)] "0007" "54.0").2.2
    ⟨"outdoor_temp", "°C", "temperature", "Outdoor temperature"⟩ 54
    (by with_unfolding_all rfl) (by with_unfolding_all rfl)
  simpa using h3

/-- C6: for delivered topics `<gateway-id>/HP/<register-id>` and
`<gateway-id>/HP/STATUS/<register-id>`, `_on_message` extracts the register
id as the last path segment, and catalog lookup uppercases first, so
resolution is case-insensitive: any id resolves to the same descriptor as
its uppercased form. -/
theorem topic_extraction_last_segment_case_insensitive (gw reg : List Char)
    (hgw : '/' ∉ gw) (hreg : '/' ∉ reg) :
    extract_register_id (gw ++ '/' :: 'H' :: 'P' :: '/' :: reg) = some reg ∧
    extract_register_id
      (gw ++ '/' :: 'H' :: 'P' :: '/' :: 'S' :: 'T' :: 'A' :: 'T' :: 'U' :: 'S' :: '/' :: reg)
      = some reg ∧
    (pySplit '/' (gw ++ '/' :: 'H' :: 'P' :: '/' :: reg)).getLast? = some reg ∧
    (pySplit '/' (gw ++ '/' :: 'H' :: 'P' :: '/' :: 'S' :: 'T' :: 'A' :: 'T' :: 'U' :: 'S' :: '/' :: reg)).getLast?
      = some reg ∧
    (∀ (registers : List (String × RegisterInfo)) (register_id : String),
      get_register_config registers register_id =
        get_register_config registers (pyUpper register_id)) := by
  have h1 : pySplit '/' (gw ++ '/' :: 'H' :: 'P' :: '/' :: reg) = [gw, ['H', 'P'], reg] := by
    rw [show ('/' :: 'H' :: 'P' :: '/' :: reg) = '/' :: (['H', 'P'] ++ '/' :: reg) from rfl,
      pySplit_append '/' gw _ hgw,
      pySplit_append '/' ['H', 'P'] _ (by decide),
      pySplit_no_sep '/' reg hreg]
  have h2 : pySplit '/'
      (gw ++ '/' :: 'H' :: 'P' :: '/' :: 'S' :: 'T' :: 'A' :: 'T' :: 'U' :: 'S' :: '/' :: reg)
      = [gw, ['H', 'P'], ['S', 'T', 'A', 'T', 'U', 'S'], reg] := by
    rw [show ('/' :: 'H' :: 'P' :: '/' :: 'S' :: 'T' :: 'A' :: 'T' :: 'U' :: 'S' :: '/' :: reg)
        = '/' :: (['H', 'P'] ++ '/' :: (['S', 'T', 'A', 'T', 'U', 'S'] ++ '/' :: reg)) from rfl,
      pySplit_append '/' gw _ hgw,
      pySplit_append '/' ['H', 'P'] _ (by decide),
      pySplit_append '/' ['S', 'T', 'A', 'T', 'U', 'S'] _ (by decide),
      pySplit_no_sep '/' reg hreg]
  refine ⟨?_, ?_, ?_, ?_, ?_⟩
  · unfold extract_register_id
    rw [h1]
    simp [List.getD]
  · unfold extract_register_id
    rw [h2]
    simp [List.getD]
  · rw [h1]
    rfl
  · rw [h2]
    rfl
  · intro registers register_id
    unfold get_register_config
    rw [pyUpper_idem]

/-- Witness for C6 at a concrete gateway id and register id. -/
theorem topic_extraction_witness :
    extract_register_id ("cd4dee258efa".data ++ '/' :: 'H' :: 'P' :: '/' :: "cfaa".data)
      = some "cfaa".data ∧
    extract_register_id
      ("cd4dee258efa".data ++ '/' :: 'H' :: 'P' :: '/' :: 'S' :: 'T' :: 'A' :: 'T' :: 'U' :: 'S' :: '/' :: "cfaa".data)
      = some "cfaa".data :=
  ⟨(topic_extraction_last_segment_case_insensitive "cd4dee258efa".data "cfaa".data
      (by decide) (by decide)).1,
   (topic_extraction_last_segment_case_insensitive "cd4dee258efa".data "cfaa".data
      (by decide) (by decide)).2.1⟩

/-! ## `src/collector/register_manager.py` — `RegisterManager`

A profile register entry is the YAML mapping for one register id; the
loader reads only `logical_name` (`config.get('logical_name')`), so absent
keys are `none`. A profile source is the file as the loader sees it:
missing on disk, unreadable YAML, or a parsed document (where an empty file
parses to `None`, modelled `loaded none`). -/

structure RegisterEntry where
  logical_name : Option String
deriving DecidableEq

structure ProfileData where
  registers : Option (List (String × RegisterEntry))
  metadata : Option (List (String × String))

inductive ProfileSource where
  | missing
  | invalid
  | loaded (data : Option ProfileData)

/-- `RegisterManager._load_profile`: a missing file raises
`FileNotFoundError`; a YAML parse failure is re-raised; an empty document
(`None`) raises when `.get` is called on it; otherwise the `registers` and
`metadata` keys are read with `{}` defaults — a document missing either key
loads fine. -/
def load_profile (src : ProfileSource) :
    Except String (List (String × RegisterEntry) × List (String × String)) :=
  match src with
  | .missing => .error "FileNotFoundError"
  | .invalid => .error "YAMLError"
  | .loaded none => .error "AttributeError"
  | .loaded (some pd) => .ok (pd.registers.getD [], pd.metadata.getD [])

/-- Python dict assignment `m[k] = v`: any earlier binding of `k` is
replaced. -/
def dictInsert (m : List (String × String)) (k v : String) : List (String × String) :=
  m.filter (fun p => p.1 ≠ k) ++ [(k, v)]

/-- `RegisterManager._build_logical_map`: entries whose `logical_name` is
absent or empty (Python falsiness) are skipped, not rejected. -/
def build_logical_map (registers : List (String × RegisterEntry)) : List (String × String) :=
  registers.foldl
    (fun m p =>
      match p.2.logical_name with
      | some ln => if ln = "" then m else dictInsert m ln p.1
      | none => m)
    []

def containsKey (m : List (String × String)) (k : String) : Bool :=
  m.any (fun p => p.1 == k)

/-- `RegisterManager._detect_capabilities`: each capability flag is the
presence of one logical name in the logical map. -/
def detect_capabilities (logical_map : List (String × String)) : List (String × Bool) :=
  [("has_power_measurement", containsKey logical_map "power_consumption"),
   ("has_energy_measurement", containsKey logical_map "energy_accumulated"),
   ("has_heat_carrier_sensors", containsKey logical_map "heat_carrier_return"),
   ("has_separate_heater_steps", containsKey logical_map "add_heat_step_1"),
   ("has_detailed_runtime", containsKey logical_map "compressor_runtime_heating"),
   ("has_external_tank_sensor", containsKey logical_map "warm_water_2")]

structure RegisterManagerState where
  registers : List (String × RegisterEntry)
  metadata : List (String × String)
  logical_map : List (String × String)
  capabilities : List (String × Bool)
deriving DecidableEq

/-- `RegisterManager.__init__`: load the profile, build the logical map,
detect capabilities. Only `_load_profile` can raise. -/
def register_manager_init (src : ProfileSource) : Except String RegisterManagerState :=
  match load_profile src with
  | .error e => .error e
  | .ok rm =>
    let lm := build_logical_map rm.1
    .ok { registers := rm.1, metadata := rm.2, logical_map := lm,
          capabilities := detect_capabilities lm }

/-! ## `src/dashboard/pump_config.py` — capability flags by brand -/

def is_thermia (pump_type : String) : Bool := pump_type == "thermia_diplomat"

def is_ivt (pump_type : String) : Bool := pump_type == "ivt_greenline"

/-- `pump_config.get_capabilities`: the dashboard's six capability flags,
derived from the configured `pump_type` alone (not from the loaded
catalog). -/
def get_capabilities (pump_type : String) : List (String × Bool) :=
  [("has_power_measurement", is_thermia pump_type),
   ("has_energy_measurement", is_thermia pump_type),
   ("has_heat_carrier_sensors", is_ivt pump_type),
   ("has_separate_heater_steps", is_ivt pump_type),
   ("has_detailed_runtime", is_ivt pump_type),
   ("has_external_tank_sensor", is_ivt pump_type)]

/-- C7 counterexample: a profile whose only register entry is missing the
required `logical_name` field initializes without an exception — the entry
is silently skipped from the logical map and the manager starts with the
partial catalog, contradicting the claimed fatal load-time error. -/
theorem register_manager_accepts_missing_field :
    register_manager_init (.loaded (some ⟨some [("CFAA", ⟨none⟩)], none⟩)) =
      .ok ⟨[("CFAA", ⟨none⟩)], [], [],
        [("has_power_measurement", false), ("has_energy_measurement", false),
         ("has_heat_carrier_sensors", false), ("has_separate_heater_steps", false),
         ("has_detailed_runtime", false), ("has_external_tank_sensor", false)]⟩ := by
  with_unfolding_all rfl

/-- C7 amended: initialization raises only when the profile file is missing,
the YAML fails to load, or the document is empty; a catalog entry missing a
required field (such as `logical_name`) is tolerated — it is skipped when
building the logical map and loading succeeds. -/
theorem register_manager_fatal_only_for_unreadable_source :
    (∀ pd : ProfileData, register_manager_init (.loaded (some pd)) =
      .ok { registers := pd.registers.getD [], metadata := pd.metadata.getD [],
            logical_map := build_logical_map (pd.registers.getD []),
            capabilities := detect_capabilities (build_logical_map (pd.registers.getD [])) }) ∧
    register_manager_init .missing = .error "FileNotFoundError" ∧
    register_manager_init .invalid = .error "YAMLError" ∧
    register_manager_init (.loaded none) = .error "AttributeError" ∧
    build_logical_map [("CFAA", ⟨none⟩)] = [] :=
  ⟨fun _ => rfl, rfl, rfl, rfl, by with_unfolding_all rfl⟩

/-- C8 counterexample: the dashboard's capability flags are not computed
from which logical names the loaded catalog maps — `get_capabilities` takes
only the configured pump type. With a catalog that does map
`power_consumption`, `RegisterManager` reports `has_power_measurement =
true`, while the dashboard for pump type `ivt_greenline` reports it
`false`. -/
theorem dashboard_capabilities_ignore_catalog :
    List.lookup "has_power_measurement" (get_capabilities "ivt_greenline") = some false ∧
    containsKey (build_logical_map [("CFAA", ⟨some "power_consumption"⟩)])
      "power_consumption" = true ∧
    List.lookup "has_power_measurement"
      (detect_capabilities (build_logical_map [("CFAA", ⟨some "power_consumption"⟩)]))
      = some true :=
  ⟨by with_unfolding_all rfl, by with_unfolding_all rfl, by with_unfolding_all rfl⟩

/-- C8 amended: `RegisterManager._detect_capabilities` computes each flag
once at catalog-load time as the presence of one logical name
(`has_power_measurement` iff `power_consumption` is mapped,
`has_energy_measurement` iff `energy_accumulated`, `has_heat_carrier_sensors`
iff `heat_carrier_return`, `has_separate_heater_steps` iff `add_heat_step_1`,
`has_detailed_runtime` iff `compressor_runtime_heating`,
`has_external_tank_sensor` iff `warm_water_2`); the dashboard's
`pump_config.get_capabilities` computes the same six flag names from the
configured pump type instead (thermia_diplomat → power/energy flags,
ivt_greenline → the other four), without consulting the catalog. -/
theorem capability_flags_catalog_and_brand :
    (∀ lm : List (String × String),
      List.lookup "has_power_measurement" (detect_capabilities lm)
        = some (containsKey lm "power_consumption") ∧
      List.lookup "has_energy_measurement" (detect_capabilities lm)
        = some (containsKey lm "energy_accumulated") ∧
      List.lookup "has_heat_carrier_sensors" (detect_capabilities lm)
        = some (containsKey lm "heat_carrier_return") ∧
      List.lookup "has_separate_heater_steps" (detect_capabilities lm)
        = some (containsKey lm "add_heat_step_1") ∧
      List.lookup "has_detailed_runtime" (detect_capabilities lm)
        = some (containsKey lm "compressor_runtime_heating") ∧
      List.lookup "has_external_tank_sensor" (detect_capabilities lm)
        = some (containsKey lm "warm_water_2")) ∧
    (∀ pump_type : String,
      List.lookup "has_power_measurement" (get_capabilities pump_type)
        = some (is_thermia pump_type) ∧
      List.lookup "has_energy_measurement" (get_capabilities pump_type)
        = some (is_thermia pump_type) ∧
      List.lookup "has_heat_carrier_sensors" (get_capabilities pump_type)
        = some (is_ivt pump_type) ∧
      List.lookup "has_separate_heater_steps" (get_capabilities pump_type)
        = some (is_ivt pump_type) ∧
      List.lookup "has_detailed_runtime" (get_capabilities pump_type)
        = some (is_ivt pump_type) ∧
      List.lookup "has_external_tank_sensor" (get_capabilities pump_type)
        = some (is_ivt pump_type)) :=
  ⟨fun _ => ⟨rfl, rfl, rfl, rfl, rfl, rfl⟩, fun _ => ⟨rfl, rfl, rfl, rfl, rfl, rfl⟩⟩

/-! ## `src/dashboard/app.py` — runtime percentages -/

/-- Modelled from the spec: `calculate_runtime_stats` lives in the
dashboard's `data_query` module (class `HeatPumpDataQuery`), whose source is
not in the repository snapshot — only its callers are. Following §4.4 of the
spec, it integrates the compressor-on and auxiliary-heater-on series over
the range and reports derived percentages `on_seconds / elapsed_seconds *
100`, clamped to [0, 100] to absorb sampling edge effects. -/
def calculate_runtime_stats (compressor_on_seconds aux_heater_on_seconds elapsed_seconds : ℚ) :
    List (String × ℚ) :=
  [("compressor_runtime_percent",
      max 0 (min 100 (compressor_on_seconds / elapsed_seconds * 100))),
   ("aux_heater_runtime_percent",
      max 0 (min 100 (aux_heater_on_seconds / elapsed_seconds * 100)))]

structure RuntimeData where
  compressor_percent : ℚ
  aux_heater_percent : ℚ
  inactive_percent : ℚ

/-- `app.get_runtime_data`: read the two percentages from the stats dict
(defaulting to 0) and derive the inactive share as their complement to
100. -/
def get_runtime_data (runtime_stats : List (String × ℚ)) : RuntimeData :=
  { compressor_percent := (List.lookup "compressor_runtime_percent" runtime_stats).getD 0,
    aux_heater_percent := (List.lookup "aux_heater_runtime_percent" runtime_stats).getD 0,
    inactive_percent := 100 - (List.lookup "compressor_runtime_percent" runtime_stats).getD 0
      - (List.lookup "aux_heater_runtime_percent" runtime_stats).getD 0 }

/-- C9: over any queried range, the reported compressor, auxiliary-heater
and derived inactive percentages sum to exactly 100, and each on-percentage
is clamped into [0, 100]. (In the rational model the sum is exact; the
Python floats carry the usual floating tolerance.) -/
theorem runtime_percentages_sum_to_hundred
    (compressor_on aux_heater_on elapsed : ℚ) :
    (get_runtime_data (calculate_runtime_stats compressor_on aux_heater_on elapsed)).compressor_percent
      + (get_runtime_data (calculate_runtime_stats compressor_on aux_heater_on elapsed)).aux_heater_percent
      + (get_runtime_data (calculate_runtime_stats compressor_on aux_heater_on elapsed)).inactive_percent
      = 100 ∧
    0 ≤ (get_runtime_data (calculate_runtime_stats compressor_on aux_heater_on elapsed)).compressor_percent ∧
    (get_runtime_data (calculate_runtime_stats compressor_on aux_heater_on elapsed)).compressor_percent ≤ 100 ∧
    0 ≤ (get_runtime_data (calculate_runtime_stats compressor_on aux_heater_on elapsed)).aux_heater_percent ∧
    (get_runtime_data (calculate_runtime_stats compressor_on aux_heater_on elapsed)).aux_heater_percent ≤ 100 := by
  simp only [calculate_runtime_stats, get_runtime_data, List.lookup]
  refine ⟨by ring, ?_, ?_, ?_, ?_⟩ <;>
    simp [le_max_iff, max_le_iff, min_le_iff, le_min_iff]

/-- The claim side of C10: `validate_metric` accepts exactly under these
per-type bounds, written as the claim states them. -/
def validate_metric_claim (registers : List (String × RegisterInfo)) (register_id : String)
    (value : ℚ) : Prop :=
  match List.lookup register_id registers with
  | none => True
  | some info =>
    if info.type = "temperature" then -50 ≤ value ∧ value ≤ 150
    else if info.type = "status" then True
    else if info.type = "power" then 0 ≤ value ∧ value ≤ 50000
    else if info.type = "energy" then 0 ≤ value
    else if info.type = "percentage" then 0 ≤ value ∧ value ≤ 100
    else if info.type = "alarm" then 0 ≤ value
    else True

/-- C10: `validate_metric` accepts a processed value exactly according to
the fixed per-type bounds — temperature in [-50, 150], power in [0, 50000],
energy ≥ 0, percentage in [0, 100], alarm ≥ 0, status and any other type
always — and a register id absent from the loaded configuration always
validates. -/
theorem validate_metric_bounds (registers : List (String × RegisterInfo))
    (register_id : String) (value : ℚ) :
    validate_metric registers register_id value = true ↔
      validate_metric_claim registers register_id value := by
  unfold validate_metric validate_metric_claim
  cases List.lookup register_id registers with
  | none => simp
  | some info =>
    show (if info.type = "temperature" then decide (-50 ≤ value ∧ value ≤ 150)
        else if info.type = "status" then true
        else if info.type = "power" then decide (0 ≤ value ∧ value ≤ 50000)
        else if info.type = "energy" then decide (0 ≤ value)
        else if info.type = "percentage" then decide (0 ≤ value ∧ value ≤ 100)
        else if info.type = "alarm" then decide (0 ≤ value)
        else true) = true ↔
      (if info.type = "temperature" then -50 ≤ value ∧ value ≤ 150
        else if info.type = "status" then True
        else if info.type = "power" then 0 ≤ value ∧ value ≤ 50000
        else if info.type = "energy" then 0 ≤ value
        else if info.type = "percentage" then 0 ≤ value ∧ value ≤ 100
        else if info.type = "alarm" then 0 ≤ value
        else True)
    split_ifs <;> simp
